import Mathlib

/-!
Shallow embedding of `library/kvm_cmd.py` (ansible-kvm).

The module's `KvmCmd` class reads a flat parameter dictionary, builds
argument vectors for `qemu-img` / `qemu-kvm`, probes the filesystem with
`os.path.exists`, and `main()` sequences a handful of `if` blocks that
either execute commands via `module.run_command` or terminate early via
`module.exit_json` / `module.fail_json`.

Embedding choices:
  * Parameters are a structure of `Option String` fields (Ansible passes
    `None` for unset options; `image_format` defaults to `"qcow2"` and
    `state` to `"present"` in `argument_spec`, but the builders are
    total functions of arbitrary parameter records).
  * A Python list element appended by `cmd.append(x)` where `x` may be
    `None` is modelled as `Option String`; string literals are `some`.
  * The filesystem is a record of pure predicates (`os.path.exists`,
    plus regular-file and size observations that only the spec-side
    probe consults).
  * Command execution is an oracle `Env` mapping an executed command and
    the current filesystem to `(rc, stdout, stderr)` and the new
    filesystem.  Every call site of `KvmCmd.execute_command` uses the
    default `use_unsafe_shell=False`, recorded in the `Exec` record.
  * `main()` is `mainRun`, returning the terminal outcome (`Final`),
    the list of executed commands, and the final filesystem.  The
    attribute `kvmCmd.cname` is never assigned by `KvmCmd.__init__`, so
    the two `fail_json` sites that format it raise `AttributeError`
    while evaluating their arguments; this is the `Final.attrError`
    outcome.
-/

/-- The module parameters that `KvmCmd.__init__` copies out of
`module.params`, plus the ambient `module.check_mode` flag.  Unset
options are `none`. -/
structure Params where
  action : Option String
  state : String
  check_mode : Bool
  instance_name : Option String
  instance_cpu : Option String
  instance_cpus : Option String
  instance_ram : Option String
  instance_vnc : Option String
  instance_display : Option String
  instance_cdrom : Option String
  image_name : Option String
  image_base : Option String
  image_format : Option String
  image_size : Option String
deriving DecidableEq, Repr

/-- Filesystem observations.  `pathExists` is `os.path.exists`; the
other two fields are consulted only by the spec-side image probe
(`§4.3`: regular file of nonzero size), never by the embedded code. -/
structure FS where
  pathExists : String → Bool
  isRegularFile : String → Bool
  fileSize : String → Nat

/-- A command handed to `module.run_command`: the argument vector
(elements may be Python `None`) and the `use_unsafe_shell` flag. -/
structure Exec where
  argv : List (Option String)
  useShell : Bool
deriving DecidableEq, Repr

/-- `KvmCmd.execute_command(cmd)`: every call site in the source uses
the default `use_unsafe_shell=False`, so the command is run as a vector
without shell interpretation. -/
def execute_command (argv : List (Option String)) : Exec :=
  { argv := argv, useShell := false }

/-- `KvmCmd.instance_exists`: `os.path.exists(self.instance_name)` when
the name is set, else `False`. -/
def instance_exists (p : Params) (fs : FS) : Bool :=
  match p.instance_name with
  | some n => fs.pathExists n
  | none => false

/-- `KvmCmd.image_exists`: the source returns `True` unconditionally. -/
def image_exists (_p : Params) (_fs : FS) : Bool :=
  true

/-- `KvmCmd.create_instance` argument vector:
`qemu-img create -f <image_format>` (`image_format` appended even when
unset), `-o backing_file=<image_base>` when a base is set, the
`instance_name` target when set, the `image_size` when set. -/
def create_instance_argv (p : Params) : List (Option String) :=
  [some "qemu-img", some "create", some "-f", p.image_format]
    ++ (match p.image_base with
        | some b => [some "-o", some ("backing_file=" ++ b)]
        | none => [])
    ++ (match p.instance_name with
        | some n => [some n]
        | none => [])
    ++ (match p.image_size with
        | some s => [some s]
        | none => [])

/-- `KvmCmd.instance_boot` argument vector: `qemu-kvm -daemonize -hda`
then the disk path when set, then `-cpu`, `-smp`, `-m`, `-vnc` when the
fields are set, then `-display` (default `sdl`) and `-cdrom` (default
`cloud-init/default/default-cidata.iso`). -/
def instance_boot_argv (p : Params) : List (Option String) :=
  [some "qemu-kvm", some "-daemonize", some "-hda"]
    ++ (match p.instance_name with
        | some n => [some n]
        | none => [])
    ++ (match p.instance_cpu with
        | some c => [some "-cpu", some c]
        | none => [])
    ++ (match p.instance_cpus with
        | some n => [some "-smp", some ("cpus=" ++ n)]
        | none => [])
    ++ (match p.instance_ram with
        | some r => [some "-m", some r]
        | none => [])
    ++ (match p.instance_vnc with
        | some v => [some "-vnc", some v]
        | none => [])
    ++ [some "-display", some (p.instance_display.getD "sdl"),
        some "-cdrom",
        some (p.instance_cdrom.getD "cloud-init/default/default-cidata.iso")]

/-- `KvmCmd.instance_show` argument vector: `qemu-img info
[<instance_name>]`. -/
def instance_show_argv (p : Params) : List (Option String) :=
  [some "qemu-img", some "info"]
    ++ (match p.instance_name with
        | some n => [some n]
        | none => [])

/-- `KvmCmd.image_show` argument vector: `qemu-img info
[<image_name>]`. -/
def image_show_argv (p : Params) : List (Option String) :=
  [some "qemu-img", some "info"]
    ++ (match p.image_name with
        | some n => [some n]
        | none => [])

/-- `KvmCmd.create_image` argument vector: the source builds only
`[qemu-img]` with no further arguments. -/
def create_image_argv (_p : Params) : List (Option String) :=
  [some "qemu-img"]

/-- Mutable state of `main()`: the `rc/out/err` locals (with `rc`
initialised to `None`), the list of commands executed so far, and the
current filesystem. -/
structure St where
  rc : Option Int
  out : String
  err : String
  trace : List Exec
  fs : FS

/-- How a run of `main()` terminates. -/
inductive Final where
  /-- `module.exit_json(**result)` at the end of `main`: the `changed`
  flag, and `stdout`/`stderr` keys when the strings are nonempty. -/
  | exitJson (changed : Bool) (stdout stderr : Option String)
  /-- `module.exit_json(changed=True)` inside a check-mode branch. -/
  | checkExit
  /-- `module.fail_json(...)` with the recorded `msg` and `rc`. -/
  | failJson (msg : String) (rc : Option Int)
  /-- Python `AttributeError` raised while evaluating a `fail_json`
  argument that reads the never-assigned attribute. -/
  | attrError (attr : String)
deriving DecidableEq, Repr

/-- Oracle for `module.run_command`: exit code, stdout, stderr, and the
filesystem after the command's side effects. -/
def Env : Type :=
  Exec → FS → (Int × String × String) × FS

/-- `(rc, out, err) = self.execute_command(cmd)`: run one command
through the oracle, record it in the trace, and update the locals. -/
def runCmd (env : Env) (argv : List (Option String)) (st : St) : St :=
  let e := execute_command argv
  let r := env e st.fs
  { rc := some r.1.1, out := r.1.2.1, err := r.1.2.2,
    trace := st.trace ++ [e], fs := r.2 }

/-- Python `rc != 0` where `rc` is `None` or an int: `None != 0` is
`True`. -/
def pyNeqZero : Option Int → Bool
  | none => true
  | some r => r != 0

/-- Python `rc is not None and rc != 0`. -/
def someNeqZero : Option Int → Bool
  | none => false
  | some r => r != 0

/-- A block of `main()` either falls through (`none`) or terminates the
process (`some final`), in both cases with an updated state. -/
def Block : Type :=
  St → Option Final × St

/-- Sequence two blocks: the second runs only if the first fell
through. -/
def andThen (r : Option Final × St) (b : Block) : Option Final × St :=
  match r with
  | (some f, st) => (some f, st)
  | (none, st) => b st

/-- Shared `if rc is not None and rc != 0: fail_json(..., msg=err,
rc=rc)` epilogue of the `instance-create`/`boot` present branches. -/
def rcFinish (st : St) : Option Final × St :=
  if someNeqZero st.rc then (some (Final.failJson st.err st.rc), st)
  else (none, st)

/-- `action == 'image-create'` block: `image_exists()` is always true,
so the create branch is dead; `rc` stays `None`, `rc != 0` holds, and
formatting the `fail_json` name reads `kvmCmd.cname`, raising
`AttributeError`. -/
def imageCreateBlock (p : Params) : Block := fun st =>
  if p.action = some "image-create" then
    if !(image_exists p st.fs) && p.check_mode then (some Final.checkExit, st)
    else if pyNeqZero st.rc then (some (Final.attrError "cname"), st)
    else (none, st)
  else (none, st)

/-- `action == 'image-show'` block: runs `qemu-img info` when the image
exists (always), then fails — via the `cname` `AttributeError` — when
the command's `rc` is nonzero. -/
def imageShowBlock (env : Env) (p : Params) : Block := fun st =>
  if p.action = some "image-show" then
    let st1 := if image_exists p st.fs then runCmd env (image_show_argv p) st else st
    if !(image_exists p st1.fs) then
      (some (Final.failJson "Instance not exists" none), st1)
    else if pyNeqZero st1.rc then (some (Final.attrError "cname"), st1)
    else (none, st1)
  else (none, st)

/-- Shared `state == 'absent'` branch of `instance-create` and `boot`:
the removal commands are commented out, so outside check mode nothing
runs, `rc` stays `None`, and `rc != 0` sends the run into
`fail_json(msg=err, rc=rc)`. -/
def absentBranch (p : Params) : Block := fun st =>
  if instance_exists p st.fs && p.check_mode then (some Final.checkExit, st)
  else if pyNeqZero st.rc then (some (Final.failJson st.err st.rc), st)
  else (none, st)

/-- Second half of the `instance-create` present branch: re-probe, run
`create_instance` when absent, then the `rc` epilogue. -/
def instanceCreatePresent2 (env : Env) (p : Params) : Block := fun st =>
  if !(instance_exists p st.fs) then
    if p.check_mode then (some Final.checkExit, st)
    else rcFinish (runCmd env (create_instance_argv p) st)
  else rcFinish st

/-- `instance-create` present branch: when the instance exists, check
mode exits, otherwise `instance_show` runs; then the absent re-probe. -/
def instanceCreatePresent (env : Env) (p : Params) : Block := fun st =>
  if instance_exists p st.fs then
    if p.check_mode then (some Final.checkExit, st)
    else instanceCreatePresent2 env p (runCmd env (instance_show_argv p) st)
  else instanceCreatePresent2 env p st

/-- `action == 'instance-create'` block. -/
def instanceCreateBlock (env : Env) (p : Params) : Block := fun st =>
  if p.action = some "instance-create" then
    if p.state = "absent" then absentBranch p st
    else if p.state = "present" then instanceCreatePresent env p st
    else (none, st)
  else (none, st)

/-- Second half of the `boot` present branch: re-probe, boot when the
instance (now) exists — check mode exits first — then the `rc`
epilogue. -/
def bootPresent2 (env : Env) (p : Params) : Block := fun st =>
  if instance_exists p st.fs then
    if p.check_mode then (some Final.checkExit, st)
    else rcFinish (runCmd env (instance_boot_argv p) st)
  else rcFinish st

/-- `boot` present branch: when the instance is absent the source runs
`create_instance` and then `instance_boot` (no check-mode guard), then
re-probes. -/
def bootPresent (env : Env) (p : Params) : Block := fun st =>
  if !(instance_exists p st.fs) then
    bootPresent2 env p
      (runCmd env (instance_boot_argv p) (runCmd env (create_instance_argv p) st))
  else bootPresent2 env p st

/-- `action == 'boot'` block. -/
def bootBlock (env : Env) (p : Params) : Block := fun st =>
  if p.action = some "boot" then
    if p.state = "absent" then absentBranch p st
    else if p.state = "present" then bootPresent env p st
    else (none, st)
  else (none, st)

/-- `action == 'show'` block: `fail_json` when the instance does not
exist, otherwise `pass`. -/
def showBlock (p : Params) : Block := fun st =>
  if p.action = some "show" then
    if !(instance_exists p st.fs) then
      (some (Final.failJson "Instance not exists" none), st)
    else (none, st)
  else (none, st)

/-- Python truthiness of a string result field: present iff nonempty. -/
def strOpt (s : String) : Option String :=
  if s = "" then none else some s

/-- Epilogue of `main()`: `changed` is true iff `rc` was ever assigned;
`stdout`/`stderr` appear when nonempty; then `exit_json(**result)`. -/
def finalStep (st : St) : Final :=
  Final.exitJson st.rc.isSome (strOpt st.out) (strOpt st.err)

/-- The body of `main()` after argument parsing: the action blocks in
source order. -/
def mainSt (env : Env) (p : Params) (st : St) : Option Final × St :=
  andThen
    (andThen
      (andThen
        (andThen (imageCreateBlock p st) (imageShowBlock env p))
        (instanceCreateBlock env p))
      (bootBlock env p))
    (showBlock p)

/-- The locals of `main()` right after argument parsing: `rc=None`,
empty `out`/`err`, nothing executed, the initial filesystem. -/
def initSt (fs0 : FS) : St :=
  { rc := none, out := "", err := "", trace := [], fs := fs0 }

/-- `main()`: from an initial filesystem, the terminal outcome, the
commands executed, and the final filesystem. -/
def mainRun (env : Env) (p : Params) (fs0 : FS) : Final × List Exec × FS :=
  match mainSt env p (initSt fs0) with
  | (some f, st) => (f, st.trace, st.fs)
  | (none, st) => (finalStep st, st.trace, st.fs)

/-! Spec-side definitions, for comparison with the embedded code.  Each
follows the specification's words for the corresponding builder or
probe; `none` stands for the `InvalidSpec` failure. -/

/-- The create-image vector exactly as the specification states it:
`qemu-img create -f <format> [-o backing_file=<base>] <target>
[<size>]`, failing (`none`, for `InvalidSpec`) when the format is
unset. -/
def create_image_vector_spec (p : Params) : Option (List String) :=
  match p.image_format, p.instance_name with
  | some f, some t =>
      some (["qemu-img", "create", "-f", f]
        ++ (match p.image_base with
            | some b => ["-o", "backing_file=" ++ b]
            | none => [])
        ++ [t]
        ++ (match p.image_size with
            | some s => [s]
            | none => []))
  | _, _ => none

/-- The boot-instance vector exactly as the specification states it:
`qemu-kvm -daemonize -hda <disk> [-cpu <model>] [-smp cpus=<n>]
[-m <ram>] [-vnc <addr>] -display <display|sdl> -cdrom
<cdrom|default-iso>`, failing (`none`, for `InvalidSpec`) when the disk
path is unset. -/
def boot_vector_spec (p : Params) : Option (List String) :=
  match p.instance_name with
  | none => none
  | some d =>
      some (["qemu-kvm", "-daemonize", "-hda", d]
        ++ (match p.instance_cpu with
            | some c => ["-cpu", c]
            | none => [])
        ++ (match p.instance_cpus with
            | some n => ["-smp", "cpus=" ++ n]
            | none => [])
        ++ (match p.instance_ram with
            | some r => ["-m", r]
            | none => [])
        ++ (match p.instance_vnc with
            | some v => ["-vnc", v]
            | none => [])
        ++ ["-display", p.instance_display.getD "sdl",
            "-cdrom", p.instance_cdrom.getD "cloud-init/default/default-cidata.iso"])

/-- The image probe exactly as the specification states it: present iff
the path exists and is a regular file of nonzero size. -/
def image_probe_spec (fs : FS) (path : String) : Bool :=
  fs.pathExists path && fs.isRegularFile path && (fs.fileSize path != 0)

/-! Concrete fixtures used by witnesses and counterexamples. -/

/-- Baseline parameter record: the `argument_spec` defaults (`state`
present, `image_format` qcow2) with every optional field unset and
check mode off. -/
def noParams : Params :=
  { action := none, state := "present", check_mode := false,
    instance_name := none, instance_cpu := none, instance_cpus := none,
    instance_ram := none, instance_vnc := none, instance_display := none,
    instance_cdrom := none, image_name := none, image_base := none,
    image_format := some "qcow2", image_size := none }

/-- A filesystem holding exactly one nonempty regular file. -/
def fsOne (n : String) : FS :=
  { pathExists := fun s => s == n, isRegularFile := fun s => s == n,
    fileSize := fun s => if s == n then 1 else 0 }

/-- An empty filesystem. -/
def fsEmpty : FS :=
  { pathExists := fun _ => false, isRegularFile := fun _ => false,
    fileSize := fun _ => 0 }

/-- An oracle on which every command succeeds with empty output and no
filesystem effect. -/
def envOk : Env := fun _ fs => ((0, "", ""), fs)

/-- The filesystem holding exactly the disk `/vm/a.qcow2`. -/
def fsA : FS := fsOne "/vm/a.qcow2"

/-- Boot request for the existing disk `/vm/a.qcow2`. -/
def pBootFix : Params :=
  { noParams with action := some "boot", instance_name := some "/vm/a.qcow2" }

/-- `instance-create` request for `/vm/a.qcow2`. -/
def pInstFix : Params :=
  { noParams with
    action := some "instance-create", instance_name := some "/vm/a.qcow2" }

/-- `show` request for `/vm/a.qcow2`. -/
def pShowFix : Params :=
  { noParams with action := some "show", instance_name := some "/vm/a.qcow2" }

/-- `image-create` request. -/
def pImgFix : Params :=
  { noParams with action := some "image-create", image_name := some "/img/x" }

/-- Boot request with `state=absent`. -/
def pAbsFix : Params :=
  { noParams with
    action := some "boot", state := "absent",
    instance_name := some "/vm/a.qcow2" }

/-- Parameter record with the image format unset and a target set. -/
def pNoFmt : Params :=
  { noParams with image_format := none, instance_name := some "/t.img" }

/-- Fully populated create-image request. -/
def pFullImg : Params :=
  { noParams with
    instance_name := some "/t.img", image_base := some "/base.img",
    image_size := some "10G" }

/-- Fully populated boot request. -/
def pFullBoot : Params :=
  { noParams with
    instance_name := some "/vm/a.qcow2",
    instance_cpu := some "core2duo,+vmx", instance_cpus := some "2",
    instance_ram := some "1024", instance_vnc := some ":1",
    instance_display := some "gtk", instance_cdrom := some "/iso/seed.iso" }

/-- Parameter record whose identifier and path fields carry shell
metacharacters and spaces. -/
def pInj : Params :=
  { noParams with
    instance_name := some "; rm -rf /",
    image_base := some "a b;c", image_name := some "x|y",
    instance_cdrom := some "cd rom.iso" }

/-- Outcome of the `boot`-of-existing path as a function of the oracle's
answer for the `instance_boot` command: `fail_json(msg=err, rc=rc)` on a
nonzero exit, otherwise `exit_json` with `changed=True`. -/
def bootOutcome (r : (Int × String × String) × FS) : Final :=
  if r.1.1 != 0 then Final.failJson r.1.2.2 (some r.1.1)
  else Final.exitJson true (strOpt r.1.2.1) (strOpt r.1.2.2)

/-! Invariants of `main()`'s state threading: `rc` has been assigned iff
some command has run, and every executed command went through
`execute_command`, hence without shell interpretation. -/

/-- `rc` is set iff the trace is nonempty, and every traced command has
`use_unsafe_shell=False`. -/
def TraceInv (st : St) : Prop :=
  (st.rc.isSome = true ↔ st.trace ≠ []) ∧ ∀ c ∈ st.trace, c.useShell = false

/-- A block outcome never early-exits through the final
`exit_json(**result)` form. -/
def NotExit (f : Option Final) : Prop :=
  ∀ ch o e, f ≠ some (Final.exitJson ch o e)

/-- Block outcomes we can chain: no `exitJson` early exit, and the
state invariant holds. -/
def BlockOk (r : Option Final × St) : Prop :=
  NotExit r.1 ∧ TraceInv r.2

lemma notExit_none : NotExit none := by
  intro ch o e hx
  exact Option.noConfusion hx

lemma notExit_check : NotExit (some Final.checkExit) := by
  intro ch o e hx
  exact Final.noConfusion (Option.some.inj hx)

lemma notExit_fail (m : String) (r : Option Int) :
    NotExit (some (Final.failJson m r)) := by
  intro ch o e hx
  exact Final.noConfusion (Option.some.inj hx)

lemma notExit_attr (a : String) : NotExit (some (Final.attrError a)) := by
  intro ch o e hx
  exact Final.noConfusion (Option.some.inj hx)

lemma traceInv_runCmd (env : Env) (argv : List (Option String)) (st : St)
    (h : ∀ c ∈ st.trace, c.useShell = false) :
    TraceInv (runCmd env argv st) := by
  refine ⟨by simp [runCmd], ?_⟩
  intro c hc
  simp only [runCmd, List.mem_append, List.mem_singleton] at hc
  rcases hc with hc | hc
  · exact h c hc
  · subst hc; rfl

lemma rcFinish_ok (st : St) (h : TraceInv st) : BlockOk (rcFinish st) := by
  unfold rcFinish
  split
  · exact ⟨notExit_fail _ _, h⟩
  · exact ⟨notExit_none, h⟩

lemma imageCreateBlock_ok (p : Params) (st : St) (h : TraceInv st) :
    BlockOk (imageCreateBlock p st) := by
  unfold imageCreateBlock
  split
  · split
    · exact ⟨notExit_check, h⟩
    · split
      · exact ⟨notExit_attr _, h⟩
      · exact ⟨notExit_none, h⟩
  · exact ⟨notExit_none, h⟩

lemma imageShowBlock_ok (env : Env) (p : Params) (st : St) (h : TraceInv st) :
    BlockOk (imageShowBlock env p st) := by
  unfold imageShowBlock
  split
  · simp only [image_exists, if_true, Bool.not_true, Bool.false_eq_true, if_false]
    split
    · exact ⟨notExit_attr _, traceInv_runCmd env _ st h.2⟩
    · exact ⟨notExit_none, traceInv_runCmd env _ st h.2⟩
  · exact ⟨notExit_none, h⟩

lemma absentBranch_ok (p : Params) (st : St) (h : TraceInv st) :
    BlockOk (absentBranch p st) := by
  unfold absentBranch
  split
  · exact ⟨notExit_check, h⟩
  · split
    · exact ⟨notExit_fail _ _, h⟩
    · exact ⟨notExit_none, h⟩

lemma instanceCreatePresent2_ok (env : Env) (p : Params) (st : St)
    (h : TraceInv st) : BlockOk (instanceCreatePresent2 env p st) := by
  unfold instanceCreatePresent2
  split
  · split
    · exact ⟨notExit_check, h⟩
    · exact rcFinish_ok _ (traceInv_runCmd env _ st h.2)
  · exact rcFinish_ok _ h

lemma instanceCreatePresent_ok (env : Env) (p : Params) (st : St)
    (h : TraceInv st) : BlockOk (instanceCreatePresent env p st) := by
  unfold instanceCreatePresent
  split
  · split
    · exact ⟨notExit_check, h⟩
    · exact instanceCreatePresent2_ok env p _ (traceInv_runCmd env _ st h.2)
  · exact instanceCreatePresent2_ok env p st h

lemma instanceCreateBlock_ok (env : Env) (p : Params) (st : St)
    (h : TraceInv st) : BlockOk (instanceCreateBlock env p st) := by
  unfold instanceCreateBlock
  split
  · split
    · exact absentBranch_ok p st h
    · split
      · exact instanceCreatePresent_ok env p st h
      · exact ⟨notExit_none, h⟩
  · exact ⟨notExit_none, h⟩

lemma bootPresent2_ok (env : Env) (p : Params) (st : St) (h : TraceInv st) :
    BlockOk (bootPresent2 env p st) := by
  unfold bootPresent2
  split
  · split
    · exact ⟨notExit_check, h⟩
    · exact rcFinish_ok _ (traceInv_runCmd env _ st h.2)
  · exact rcFinish_ok _ h

lemma bootPresent_ok (env : Env) (p : Params) (st : St) (h : TraceInv st) :
    BlockOk (bootPresent env p st) := by
  unfold bootPresent
  split
  · exact bootPresent2_ok env p _
      (traceInv_runCmd env _ _ (traceInv_runCmd env _ st h.2).2)
  · exact bootPresent2_ok env p st h

lemma bootBlock_ok (env : Env) (p : Params) (st : St) (h : TraceInv st) :
    BlockOk (bootBlock env p st) := by
  unfold bootBlock
  split
  · split
    · exact absentBranch_ok p st h
    · split
      · exact bootPresent_ok env p st h
      · exact ⟨notExit_none, h⟩
  · exact ⟨notExit_none, h⟩

lemma showBlock_ok (p : Params) (st : St) (h : TraceInv st) :
    BlockOk (showBlock p st) := by
  unfold showBlock
  split
  · split
    · exact ⟨notExit_fail _ _, h⟩
    · exact ⟨notExit_none, h⟩
  · exact ⟨notExit_none, h⟩

lemma andThen_ok (r : Option Final × St) (b : Block) (h1 : BlockOk r)
    (h2 : ∀ st, TraceInv st → BlockOk (b st)) : BlockOk (andThen r b) := by
  rcases r with ⟨f, st⟩
  cases f with
  | some f => exact h1
  | none => exact h2 st h1.2

lemma mainSt_ok (env : Env) (p : Params) (st : St) (h : TraceInv st) :
    BlockOk (mainSt env p st) := by
  unfold mainSt
  exact andThen_ok _ _
    (andThen_ok _ _
      (andThen_ok _ _
        (andThen_ok _ _ (imageCreateBlock_ok p st h)
          (fun st h => imageShowBlock_ok env p st h))
        (fun st h => instanceCreateBlock_ok env p st h))
      (fun st h => bootBlock_ok env p st h))
    (fun st h => showBlock_ok p st h)

lemma traceInv_init (fs0 : FS) : TraceInv (initSt fs0) := by
  constructor
  · simp [initSt]
  · intro c hc
    exact absurd hc (List.not_mem_nil c)

/-! Pass-through lemmas: a block whose action guard does not match
leaves the state untouched and falls through. -/

lemma imageCreateBlock_skip (p : Params) (st : St)
    (h : ¬ p.action = some "image-create") :
    imageCreateBlock p st = (none, st) := by
  unfold imageCreateBlock
  rw [if_neg h]

lemma imageShowBlock_skip (env : Env) (p : Params) (st : St)
    (h : ¬ p.action = some "image-show") :
    imageShowBlock env p st = (none, st) := by
  unfold imageShowBlock
  rw [if_neg h]

lemma instanceCreateBlock_skip (env : Env) (p : Params) (st : St)
    (h : ¬ p.action = some "instance-create") :
    instanceCreateBlock env p st = (none, st) := by
  unfold instanceCreateBlock
  rw [if_neg h]

lemma bootBlock_skip (env : Env) (p : Params) (st : St)
    (h : ¬ p.action = some "boot") :
    bootBlock env p st = (none, st) := by
  unfold bootBlock
  rw [if_neg h]

lemma showBlock_skip (p : Params) (st : St) (h : ¬ p.action = some "show") :
    showBlock p st = (none, st) := by
  unfold showBlock
  rw [if_neg h]

lemma rcFinish_snd (st : St) : (rcFinish st).2 = st := by
  unfold rcFinish
  split <;> rfl

lemma andThen_some (f : Final) (st : St) (b : Block) :
    andThen (some f, st) b = (some f, st) := rfl

lemma andThen_none (st : St) (b : Block) : andThen (none, st) b = b st := rfl

/-- With `action='boot'`, the first three blocks fall through untouched
and the `show` block never matches, so `main` is the boot block followed
only by the final epilogue. -/
lemma mainSt_boot (env : Env) (p : Params) (st : St)
    (hA : p.action = some "boot") :
    mainSt env p st = andThen (bootBlock env p st) (showBlock p) := by
  unfold mainSt
  rw [imageCreateBlock_skip p st (by simp [hA]), andThen_none,
    imageShowBlock_skip env p st (by simp [hA]), andThen_none,
    instanceCreateBlock_skip env p st (by simp [hA]), andThen_none]

lemma mainSt_instanceCreate (env : Env) (p : Params) (st : St)
    (hA : p.action = some "instance-create") :
    mainSt env p st = andThen (instanceCreateBlock env p st)
      (fun st1 => andThen (bootBlock env p st1) (showBlock p)) := by
  unfold mainSt
  rw [imageCreateBlock_skip p st (by simp [hA]), andThen_none,
    imageShowBlock_skip env p st (by simp [hA]), andThen_none]
  rcases h : instanceCreateBlock env p st with ⟨f, st1⟩
  cases f <;> rfl

lemma mainSt_show (env : Env) (p : Params) (st : St)
    (hA : p.action = some "show") :
    mainSt env p st = showBlock p st := by
  unfold mainSt
  rw [imageCreateBlock_skip p st (by simp [hA]), andThen_none,
    imageShowBlock_skip env p st (by simp [hA]), andThen_none,
    instanceCreateBlock_skip env p st (by simp [hA]), andThen_none,
    bootBlock_skip env p st (by simp [hA]), andThen_none]

lemma mainSt_imageCreate (env : Env) (p : Params) (st : St) :
    mainSt env p st = andThen (imageCreateBlock p st)
      (fun st1 =>
        andThen
          (andThen
            (andThen (imageShowBlock env p st1) (instanceCreateBlock env p))
            (bootBlock env p))
          (showBlock p)) := by
  unfold mainSt
  rcases h : imageCreateBlock p st with ⟨f, st1⟩
  cases f <;> rfl

/-- With `action='boot'` and `state='present'`, the boot block is the
present branch: recreate-then-boot when the disk is absent, re-probe
and boot otherwise. -/
lemma bootBlock_present (env : Env) (p : Params) (st : St)
    (hA : p.action = some "boot") (hS : p.state = "present") :
    bootBlock env p st =
      if instance_exists p st.fs then bootPresent2 env p st
      else bootPresent2 env p
        (runCmd env (instance_boot_argv p) (runCmd env (create_instance_argv p) st)) := by
  unfold bootBlock bootPresent
  rw [hA, hS, if_pos rfl, if_neg (by decide), if_pos rfl]
  cases h : instance_exists p st.fs <;> simp [h]

/-- The second half of the boot-present branch appends at most one
further boot command to the trace. -/
lemma bootPresent2_trace (env : Env) (p : Params) (st : St) :
    ∃ t, (bootPresent2 env p st).2.trace = st.trace ++ t := by
  unfold bootPresent2
  split
  · split
    · exact ⟨[], by simp⟩
    · refine ⟨[execute_command (instance_boot_argv p)], ?_⟩
      rw [rcFinish_snd]
      simp [runCmd]
  · exact ⟨[], by rw [rcFinish_snd]; simp⟩

/-- C9 amended: with `action='image-create'` outside check mode, no
external command is ever executed (`image_exists` returns `True`
unconditionally, so `create_image` is unreachable), the filesystem is
left unchanged, `rc` remains `None` and `None != 0` holds — but the
module terminates with an `AttributeError` crash while formatting the
`fail_json` name argument (it reads the never-assigned `kvmCmd.cname`),
not through a `fail_json` result. -/
theorem image_create_always_crashes (env : Env) (p : Params) (fs0 : FS)
    (hA : p.action = some "image-create") (hC : p.check_mode = false) :
    mainRun env p fs0 = (Final.attrError "cname", [], fs0) := by
  have h1 : imageCreateBlock p (initSt fs0) =
      (some (Final.attrError "cname"), initSt fs0) := by
    unfold imageCreateBlock
    rw [hA, if_pos rfl]
    simp [image_exists, pyNeqZero, hC, initSt]
  unfold mainRun
  rw [mainSt_imageCreate, h1, andThen_some]
  rfl

/-- Witness for the C9 amended theorem at a concrete `image-create`
invocation on an empty filesystem. -/
theorem image_create_always_crashes_witness :
    mainRun envOk pImgFix fsEmpty = (Final.attrError "cname", [], fsEmpty) :=
  image_create_always_crashes envOk pImgFix fsEmpty rfl rfl

/-- C9 counterexample to the claim as stated: at the concrete
`image-create` invocation, the run does not terminate through
`fail_json`; it terminates with the `AttributeError` on `cname`
(raised while evaluating the `fail_json` arguments), with no command
executed. -/
theorem image_create_fail_json_counterexample :
    (mainRun envOk pImgFix fsEmpty).1 = Final.attrError "cname"
      ∧ (∀ m r, (mainRun envOk pImgFix fsEmpty).1 ≠ Final.failJson m r)
      ∧ (mainRun envOk pImgFix fsEmpty).2.1 = [] := by
  refine ⟨by decide, ?_, by decide⟩
  intro m r hx
  have h : (mainRun envOk pImgFix fsEmpty).1 = Final.attrError "cname" := by decide
  rw [h] at hx
  exact Final.noConfusion hx

/-- C10: with `action='instance-create'` or `action='boot'` and
`state='absent'` outside check mode, no external command is executed
and nothing is deleted (the removal calls are commented out); the run
always terminates through `fail_json` with `msg=''` and `rc=None`,
because `rc` remains `None` and Python's `None != 0` holds. -/
theorem absent_always_fails (env : Env) (p : Params) (fs0 : FS)
    (hA : p.action = some "instance-create" ∨ p.action = some "boot")
    (hS : p.state = "absent") (hC : p.check_mode = false) :
    mainRun env p fs0 = (Final.failJson "" none, [], fs0) := by
  have hab : absentBranch p (initSt fs0) =
      (some (Final.failJson "" none), initSt fs0) := by
    unfold absentBranch
    rw [if_neg (by rw [hC]; simp), if_pos (by rfl)]
    rfl
  rcases hA with hA | hA
  · unfold mainRun
    rw [mainSt_instanceCreate env p _ hA]
    have hb : instanceCreateBlock env p (initSt fs0) =
        (some (Final.failJson "" none), initSt fs0) := by
      unfold instanceCreateBlock
      rw [hA, if_pos rfl, hS, if_pos rfl]
      exact hab
    rw [hb, andThen_some]
    rfl
  · unfold mainRun
    rw [mainSt_boot env p _ hA]
    have hb : bootBlock env p (initSt fs0) =
        (some (Final.failJson "" none), initSt fs0) := by
      unfold bootBlock
      rw [hA, if_pos rfl, hS, if_pos rfl]
      exact hab
    rw [hb, andThen_some]
    rfl

/-- Witness for C10 at a concrete `boot`/`state=absent` invocation with
the instance disk present. -/
theorem absent_always_fails_witness :
    mainRun envOk pAbsFix fsA = (Final.failJson "" none, [], fsA) :=
  absent_always_fails envOk pAbsFix fsA (Or.inr rfl) rfl rfl

/-- C8: probing is read-only.  The existence checks are embedded as
pure functions of the filesystem; an invocation of `action='show'`,
which only probes, executes no command and leaves the filesystem
unchanged, and when the instance exists it exits with `changed=False`
and no output. -/
theorem probe_only_show_is_readonly (env : Env) (p : Params) (fs0 : FS)
    (hA : p.action = some "show") :
    (mainRun env p fs0).2.1 = [] ∧ (mainRun env p fs0).2.2 = fs0
      ∧ (instance_exists p fs0 = true →
          mainRun env p fs0 = (Final.exitJson false none none, [], fs0)) := by
  unfold mainRun
  rw [mainSt_show env p _ hA]
  by_cases h : instance_exists p fs0 = true
  · have hb : showBlock p (initSt fs0) = (none, initSt fs0) := by
      unfold showBlock
      rw [hA, if_pos rfl, if_neg]
      simp [initSt, h]
    rw [hb]
    exact ⟨rfl, rfl, fun _ => rfl⟩
  · have hb : showBlock p (initSt fs0) =
        (some (Final.failJson "Instance not exists" none), initSt fs0) := by
      unfold showBlock
      rw [hA, if_pos rfl, if_pos]
      simp [initSt]
      exact Bool.not_eq_true _ ▸ (by simpa using h)
    rw [hb]
    exact ⟨rfl, rfl, fun hE => absurd hE h⟩

/-- Witness for C8 at a concrete `show` invocation with the instance
disk present. -/
theorem probe_only_show_is_readonly_witness :
    (mainRun envOk pShowFix fsA).2.1 = []
      ∧ (mainRun envOk pShowFix fsA).2.2 = fsA
      ∧ (instance_exists pShowFix fsA = true →
          mainRun envOk pShowFix fsA = (Final.exitJson false none none, [], fsA)) :=
  probe_only_show_is_readonly envOk pShowFix fsA rfl

/-- C1 amended: with `action='boot'`, `state='present'`, check mode
off, and the instance disk already present, `main` is not a no-op: it
executes `instance_boot` once more — spawning another `qemu-kvm`
process — and, when that command exits 0, reports `changed=True`
(`fail_json` with the command's `rc` otherwise). -/
theorem boot_of_existing_boots_again (env : Env) (p : Params) (fs0 : FS)
    (hA : p.action = some "boot") (hS : p.state = "present")
    (hC : p.check_mode = false) (hE : instance_exists p fs0 = true) :
    mainRun env p fs0 =
      (bootOutcome (env (execute_command (instance_boot_argv p)) fs0),
        [execute_command (instance_boot_argv p)],
        (env (execute_command (instance_boot_argv p)) fs0).2) := by
  have hshow : ∀ st, showBlock p st = (none, st) := fun st =>
    showBlock_skip p st (by simp [hA])
  rcases hr : env (execute_command (instance_boot_argv p)) fs0
    with ⟨⟨rc1, out1, err1⟩, fs1⟩
  unfold mainRun
  rw [mainSt_boot env p _ hA]
  cases hz : rc1 != 0 <;>
    simp [bootBlock_present, hA, hS, hC, hE, bootPresent2, rcFinish, runCmd,
      initSt, someNeqZero, hshow, andThen, hr, hz, bootOutcome, finalStep,
      strOpt]

/-- Witness for the C1 amended theorem: the boot request on the present
disk, on an oracle where the boot command succeeds. -/
theorem boot_of_existing_boots_again_witness :
    mainRun envOk pBootFix fsA =
      (bootOutcome (envOk (execute_command (instance_boot_argv pBootFix)) fsA),
        [execute_command (instance_boot_argv pBootFix)],
        (envOk (execute_command (instance_boot_argv pBootFix)) fsA).2) :=
  boot_of_existing_boots_again envOk pBootFix fsA rfl rfl rfl rfl

/-- C1 counterexample to the claim as stated: at the concrete boot
request on a present instance, the run spawns a hypervisor process
(the trace holds one `qemu-kvm` command) and reports `changed=True`,
not `changed=False` with no process spawned. -/
theorem boot_idempotence_counterexample :
    (mainRun envOk pBootFix fsA).1 = Final.exitJson true none none
      ∧ (mainRun envOk pBootFix fsA).2.1 =
          [execute_command (instance_boot_argv pBootFix)] := by
  exact ⟨by decide, by decide⟩

/-- C2: with `action='boot'`, `state='present'`, and the instance disk
absent, `main` first runs `create_instance` (`qemu-img create ...`) and
then `instance_boot` (`qemu-kvm ...`): boot silently recreates the
absent instance instead of failing. -/
theorem boot_recreates_absent_instance (env : Env) (p : Params) (fs0 : FS)
    (hA : p.action = some "boot") (hS : p.state = "present")
    (hE : instance_exists p fs0 = false) :
    ∃ rest, (mainRun env p fs0).2.1 =
      execute_command (create_instance_argv p)
        :: execute_command (instance_boot_argv p) :: rest := by
  unfold mainRun
  rw [mainSt_boot env p _ hA, bootBlock_present env p _ hA hS,
    if_neg (by rw [show (initSt fs0).fs = fs0 from rfl, hE]; simp)]
  rcases bootPresent2_trace env p
      (runCmd env (instance_boot_argv p) (runCmd env (create_instance_argv p) (initSt fs0)))
    with ⟨t, ht⟩
  rcases hb : bootPresent2 env p
      (runCmd env (instance_boot_argv p) (runCmd env (create_instance_argv p) (initSt fs0)))
    with ⟨f, stF⟩
  rw [hb] at ht
  have htr : stF.trace =
      execute_command (create_instance_argv p)
        :: execute_command (instance_boot_argv p) :: t := by
    rw [ht]
    simp [runCmd, initSt]
  cases f with
  | some f =>
    rw [andThen_some]
    exact ⟨t, htr⟩
  | none =>
    rw [andThen_none, showBlock_skip p stF (by simp [hA])]
    exact ⟨t, htr⟩

/-- Witness for C2: a concrete boot request on the empty filesystem
runs `qemu-img create` then `qemu-kvm`. -/
theorem boot_recreates_absent_instance_witness :
    ∃ rest, (mainRun envOk pBootFix fsEmpty).2.1 =
      execute_command (create_instance_argv pBootFix)
        :: execute_command (instance_boot_argv pBootFix) :: rest :=
  boot_recreates_absent_instance envOk pBootFix fsEmpty rfl rfl rfl

/-- C3 amended: whenever `main` reaches its final
`exit_json(**result)`, `changed=True` iff at least one external command
was executed — whether or not that command mutates state (`rc` is set
by every `run_command`, including read-only `qemu-img info` runs, and
commands that fail divert to `fail_json` or an `AttributeError` before
the `changed` computation). -/
theorem changed_flag_amended (env : Env) (p : Params) (fs0 : FS) (ch : Bool)
    (o e : Option String) (tr : List Exec) (fsF : FS)
    (h : mainRun env p fs0 = (Final.exitJson ch o e, tr, fsF)) :
    ch = true ↔ tr ≠ [] := by
  have hok := mainSt_ok env p (initSt fs0) (traceInv_init fs0)
  unfold mainRun at h
  rcases hm : mainSt env p (initSt fs0) with ⟨f, st⟩
  rw [hm] at h hok
  cases f with
  | some f =>
    injection h with h1 h23
    exact absurd (congrArg some h1) (hok.1 ch o e)
  | none =>
    injection h with h1 h23
    injection h23 with h2 h3
    unfold finalStep at h1
    injection h1 with hch ho he
    rw [← hch, ← h2]
    exact hok.2.1

/-- Witness for the C3 amended theorem at a concrete run whose trace
holds exactly one command. -/
theorem changed_flag_amended_witness :
    true = true ↔ [execute_command (instance_show_argv pInstFix)] ≠ ([] : List Exec) :=
  changed_flag_amended envOk pInstFix fsA true none none
    [execute_command (instance_show_argv pInstFix)] fsA rfl

/-- C3 counterexample to the claim as stated: the concrete
`instance-create` invocation on an existing instance executes only the
read-only `qemu-img info` command, yet reports `changed=True` — not
`changed=False` as the claim requires for runs that execute only
read-only commands. -/
theorem changed_readonly_counterexample :
    (mainRun envOk pInstFix fsA).1 = Final.exitJson true none none
      ∧ (mainRun envOk pInstFix fsA).2.1 =
          [execute_command (instance_show_argv pInstFix)]
      ∧ instance_show_argv pInstFix =
          [some "qemu-img", some "info", some "/vm/a.qcow2"] :=
  ⟨by decide, by decide, by decide⟩

/-- C4 amended: when the format and the target are set, the
create-image builder emits exactly
`qemu-img create -f <format> [-o backing_file=<base>] <target>
[<size>]`; when the format is unset it does not fail with
`InvalidSpec` — it appends the unset value in the `-f` slot (and
`main`'s argument parsing defaults the format to `qcow2`, so that case
is unreachable from the CLI); an unset target is omitted rather than
rejected. -/
theorem create_image_vector_amended (p : Params) (f t : String)
    (hf : p.image_format = some f) (ht : p.instance_name = some t) :
    ∃ l, create_image_vector_spec p = some l
      ∧ create_instance_argv p = l.map some := by
  refine ⟨["qemu-img", "create", "-f", f]
      ++ (match p.image_base with
          | some b => ["-o", "backing_file=" ++ b]
          | none => [])
      ++ [t]
      ++ (match p.image_size with
          | some s => [s]
          | none => []), ?_, ?_⟩
  · simp [create_image_vector_spec, hf, ht]
  · rcases hb : p.image_base with _ | b <;>
      rcases hs : p.image_size with _ | sz <;>
      simp [create_instance_argv, hf, ht, hb, hs]

/-- Witness for the C4 amended theorem at a fully populated spec. -/
theorem create_image_vector_amended_witness :
    ∃ l, create_image_vector_spec pFullImg = some l
      ∧ create_instance_argv pFullImg = l.map some :=
  create_image_vector_amended pFullImg "qcow2" "/t.img" rfl rfl

/-- C4 counterexample to the claim as stated: with the format unset the
builder does not fail with `InvalidSpec` (the spec-side builder does);
it returns a vector with the unset format in the `-f` slot. -/
theorem create_image_invalid_spec_counterexample :
    create_image_vector_spec pNoFmt = none
      ∧ create_instance_argv pNoFmt =
          [some "qemu-img", some "create", some "-f", none, some "/t.img"] :=
  ⟨rfl, rfl⟩

/-- C5 amended: when the disk path is set, the boot builder emits
exactly `qemu-kvm -daemonize -hda <disk> [-cpu <model>]
[-smp cpus=<n>] [-m <ram>] [-vnc <addr>] -display <display|sdl>
-cdrom <cdrom|default-iso>`; when the disk path is unset it does not
fail with `InvalidSpec` — it emits `-hda` with no disk argument, the
next flag following directly. -/
theorem boot_vector_amended (p : Params) (d : String)
    (hd : p.instance_name = some d) :
    ∃ l, boot_vector_spec p = some l ∧ instance_boot_argv p = l.map some := by
  refine ⟨["qemu-kvm", "-daemonize", "-hda", d]
      ++ (match p.instance_cpu with
          | some c => ["-cpu", c]
          | none => [])
      ++ (match p.instance_cpus with
          | some n => ["-smp", "cpus=" ++ n]
          | none => [])
      ++ (match p.instance_ram with
          | some r => ["-m", r]
          | none => [])
      ++ (match p.instance_vnc with
          | some v => ["-vnc", v]
          | none => [])
      ++ ["-display", p.instance_display.getD "sdl",
          "-cdrom", p.instance_cdrom.getD "cloud-init/default/default-cidata.iso"],
    ?_, ?_⟩
  · simp [boot_vector_spec, hd]
  · rcases hc : p.instance_cpu with _ | c <;>
      rcases hn : p.instance_cpus with _ | n <;>
      rcases hram : p.instance_ram with _ | r <;>
      rcases hv : p.instance_vnc with _ | v <;>
      simp [instance_boot_argv, hd, hc, hn, hram, hv]

/-- Witness for the C5 amended theorem at a fully populated boot
spec. -/
theorem boot_vector_amended_witness :
    ∃ l, boot_vector_spec pFullBoot = some l
      ∧ instance_boot_argv pFullBoot = l.map some :=
  boot_vector_amended pFullBoot "/vm/a.qcow2" rfl

/-- C5 counterexample to the claim as stated: with the disk path unset
the builder does not fail with `InvalidSpec` (the spec-side builder
does); it emits `-hda` immediately followed by `-display`. -/
theorem boot_invalid_spec_counterexample :
    boot_vector_spec noParams = none
      ∧ instance_boot_argv noParams =
          [some "qemu-kvm", some "-daemonize", some "-hda", some "-display",
            some "sdl", some "-cdrom",
            some "cloud-init/default/default-cidata.iso"] :=
  ⟨rfl, rfl⟩

/-- C6: every executed command carries `use_unsafe_shell=False` (the
vector is run without shell interpretation), and each identifier or
path field lands in the built vector as (part of) a single literal
element: the instance name as its own element of the boot, create, and
show vectors, the backing image inside the single `backing_file=<base>`
element, the image name and the cdrom path as their own elements. -/
theorem argv_single_element_no_shell :
    (∀ env p fs0 c, c ∈ (mainRun env p fs0).2.1 → c.useShell = false)
      ∧ (∀ p s, p.instance_name = some s →
          some s ∈ instance_boot_argv p ∧ some s ∈ create_instance_argv p
            ∧ some s ∈ instance_show_argv p)
      ∧ (∀ p b, p.image_base = some b →
          some ("backing_file=" ++ b) ∈ create_instance_argv p)
      ∧ (∀ p s, p.image_name = some s → some s ∈ image_show_argv p)
      ∧ (∀ p c, p.instance_cdrom = some c → some c ∈ instance_boot_argv p) := by
  refine ⟨?_, ?_, ?_, ?_, ?_⟩
  · intro env p fs0 c hc
    have hok := mainSt_ok env p (initSt fs0) (traceInv_init fs0)
    unfold mainRun at hc
    rcases hm : mainSt env p (initSt fs0) with ⟨f, st⟩
    rw [hm] at hc hok
    cases f with
    | some f => exact hok.2.2 c hc
    | none => exact hok.2.2 c hc
  · intro p s hs
    refine ⟨?_, ?_, ?_⟩ <;>
      simp [instance_boot_argv, create_instance_argv, instance_show_argv, hs]
  · intro p b hb
    simp [create_instance_argv, hb]
  · intro p s hs
    simp [image_show_argv, hs]
  · intro p c hc
    simp [instance_boot_argv, hc]

/-- Witness for C6: the shell flag of a traced command on a concrete
run, and the metacharacter-laden fields of `pInj` each inside a single
vector element. -/
theorem argv_single_element_no_shell_witness :
    (execute_command (instance_boot_argv pBootFix)).useShell = false
      ∧ (some "; rm -rf /" ∈ instance_boot_argv pInj
          ∧ some "; rm -rf /" ∈ create_instance_argv pInj
          ∧ some "; rm -rf /" ∈ instance_show_argv pInj)
      ∧ some ("backing_file=" ++ "a b;c") ∈ create_instance_argv pInj
      ∧ some "x|y" ∈ image_show_argv pInj
      ∧ some "cd rom.iso" ∈ instance_boot_argv pInj :=
  ⟨argv_single_element_no_shell.1 envOk pBootFix fsA
      (execute_command (instance_boot_argv pBootFix)) (by decide),
    argv_single_element_no_shell.2.1 pInj "; rm -rf /" rfl,
    argv_single_element_no_shell.2.2.1 pInj "a b;c" rfl,
    argv_single_element_no_shell.2.2.2.1 pInj "x|y" rfl,
    argv_single_element_no_shell.2.2.2.2 pInj "cd rom.iso" rfl⟩

/-- C7 amended: the image probe (`image_exists`) reports present
unconditionally — it never consults the filesystem; only the instance
probe consults it, reporting present iff `os.path.exists` holds for the
set name (any path kind, any size), and absent when the name is
unset. -/
theorem probes_amended :
    (∀ p fs, image_exists p fs = true)
      ∧ (∀ p fs n, p.instance_name = some n →
          instance_exists p fs = fs.pathExists n)
      ∧ (∀ p fs, p.instance_name = none → instance_exists p fs = false) := by
  refine ⟨fun p fs => rfl, ?_, ?_⟩
  · intro p fs n h
    simp [instance_exists, h]
  · intro p fs h
    simp [instance_exists, h]

/-- Witness for the C7 amended theorem at concrete probes. -/
theorem probes_amended_witness :
    image_exists pImgFix fsA = true
      ∧ instance_exists pBootFix fsA = fsA.pathExists "/vm/a.qcow2"
      ∧ instance_exists noParams fsA = false :=
  ⟨probes_amended.1 pImgFix fsA,
    probes_amended.2.1 pBootFix fsA "/vm/a.qcow2" rfl,
    probes_amended.2.2 noParams fsA rfl⟩

/-- C7 counterexample to the claim as stated: on the empty filesystem
the code's image probe reports present while the specification's probe
(path exists, regular file, nonzero size) reports absent. -/
theorem image_probe_counterexample :
    image_exists pImgFix fsEmpty = true
      ∧ image_probe_spec fsEmpty "/img/x" = false :=
  ⟨rfl, rfl⟩
